import Mathlib

/-!
Verification of `get_correlations` from `gperdrizet_functions.py`.

The function takes a list of feature-name pairs, a dataframe, and an optional
accumulator dictionary; for each non-self pair it selects the two columns,
drops missing rows, replaces infinities with missing and drops again, calls
the SciPy Pearson and Spearman routines on the cleaned columns, and appends
one record (nine fields) to the accumulator dictionary.

Embedding choices:
* a dataframe cell is a `Val`: a finite rational, `+inf`, `-inf`, or `nan`
  (the missing marker);
* the dataframe is an association list from column name to column;
* the accumulator is an association list from column name to a list of
  entries (a Python dict preserving insertion order); appending to a missing
  key raises `KeyError`, modelled by threading the dictionary state and an
  optional error, so that appends made before the failure persist, exactly as
  Python in-place `list.append` calls do;
* the SciPy statistic routines are external library code, so they enter the
  embedding as an oracle (`Stats`): a pair of functions from the cleaned,
  row-paired data to a (statistic, p-value) result.
-/

namespace Gperdrizet

/-- One cell of the dataframe: a finite rational, positive infinity, negative
infinity, or the missing marker (NaN). -/
inductive Val where
  | fin (q : ℚ)
  | pinf
  | ninf
  | na
deriving DecidableEq, Repr

/-- True on the missing marker, as recognised by `dropna`. -/
def Val.isNa : Val → Bool
  | .na => true
  | _ => false

/-- True on either infinity. -/
def Val.isInf : Val → Bool
  | .pinf => true
  | .ninf => true
  | _ => false

/-- The numeric value of a finite cell (junk 0 on non-finite cells, which the
cleaning steps have already removed when this is applied). -/
def Val.qval : Val → ℚ
  | .fin q => q
  | _ => 0

/-- The substitution `replace([np.inf, -np.inf], np.nan)` on one cell. -/
def replaceInf : Val → Val
  | .pinf => .na
  | .ninf => .na
  | v => v

/-- A dataframe: named columns of cells, rows aligned by position. -/
structure DataFrame where
  cols : List (String × List Val)
deriving DecidableEq, Repr

/-- Column selection by name; `none` is pandas raising `KeyError`. -/
def DataFrame.lookup (df : DataFrame) (name : String) : Option (List Val) :=
  df.cols.lookup name

/-- One value stored in the result dictionary: a feature name or a number. -/
inductive Entry where
  | str (s : String)
  | num (q : ℚ)
deriving DecidableEq, Repr

/-- The accumulator: a Python dict from column name to a list of entries. -/
abbrev Dict := List (String × List Entry)

/-- Result of one SciPy correlation routine: statistic and p-value. -/
structure StatResult where
  statistic : ℚ
  pvalue : ℚ
deriving DecidableEq, Repr

/-- Oracle for the external SciPy routines, each consuming the cleaned data as
a list of row-paired values of the two selected columns. -/
structure Stats where
  pearsonr : List (ℚ × ℚ) → StatResult
  spearmanr : List (ℚ × ℚ) → StatResult

/-- `dropna()` on a two-column frame: keep rows where neither cell is missing. -/
def dropna (rows : List (Val × Val)) : List (Val × Val) :=
  rows.filter (fun r => !r.1.isNa && !r.2.isNa)

/-- The per-pair cleaning pipeline of the source: drop missing rows, replace
infinities by the missing marker, drop again, and read off the numeric
columns handed to SciPy. -/
def cleanPair (rows : List (Val × Val)) : List (ℚ × ℚ) :=
  (dropna ((dropna rows).map (fun r => (replaceInf r.1, replaceInf r.2)))).map
    (fun r => (r.1.qval, r.2.qval))

/-- `d[k].append(v)` for a Python dict of lists: `none` when the key is
absent (`KeyError`), otherwise the dict with `v` appended to `d[k]`. -/
def dictAppend (d : Dict) (k : String) (v : Entry) : Option Dict :=
  match d with
  | [] => none
  | (k', vs) :: rest =>
    if k' = k then some ((k', vs ++ [v]) :: rest)
    else (dictAppend rest k v).map (fun r => (k', vs) :: r)

/-- Run a sequence of `d[k].append(v)` statements in order; on the first
missing key, stop and report it, keeping the appends already made (Python
mutates in place, so they survive the raised `KeyError`). -/
def appendRecord (d : Dict) : List (String × Entry) → Dict × Option String
  | [] => (d, none)
  | (k, v) :: rest =>
    match dictAppend d k v with
    | some d' => appendRecord d' rest
    | none => (d, some k)

/-- The nine append statements of the loop body, in source order.  Note the
source appends the raw `pcc.statistic` - not its absolute value - under
`Absolute Pearson`. -/
def recordEntries (a b : String) (pcc src : StatResult) : List (String × Entry) :=
  [("Feature 1", .str a),
   ("Feature 2", .str b),
   ("Absolute Spearman", .num |src.statistic|),
   ("Spearman", .num src.statistic),
   ("Spearman p-value", .num src.pvalue),
   ("Absolute Pearson", .num pcc.statistic),
   ("Pearson", .num pcc.statistic),
   ("Pearson p-value", .num pcc.pvalue),
   ("Pearson r-squared", .num (pcc.statistic ^ 2))]

/-- A Python exception surfacing from the loop body. -/
inductive PyError where
  | keyError (k : String)
deriving DecidableEq, Repr

/-- One iteration of the loop over `feature_pairs`: skip self pairs, select
and clean the two columns, run the two SciPy routines, append the record. -/
def processPair (stats : Stats) (df : DataFrame) (p : String × String) (d : Dict) :
    Dict × Option PyError :=
  if p.1 = p.2 then (d, none)
  else
    match df.lookup p.1, df.lookup p.2 with
    | some ca, some cb =>
      let cleaned := cleanPair (ca.zip cb)
      let pcc := stats.pearsonr cleaned
      let src := stats.spearmanr cleaned
      let r := appendRecord d (recordEntries p.1 p.2 pcc src)
      (r.1, r.2.map PyError.keyError)
    | none, _ => (d, some (.keyError p.1))
    | some _, none => (d, some (.keyError p.2))

/-- The loop over `feature_pairs`: an uncaught exception aborts the loop, and
the dictionary keeps the mutations made so far. -/
def getCorrLoop (stats : Stats) (df : DataFrame) :
    List (String × String) → Dict → Dict × Option PyError
  | [], d => (d, none)
  | p :: ps, d =>
    match processPair stats df p d with
    | (d', none) => getCorrLoop stats df ps d'
    | (d', some e) => (d', some e)

/-- The fresh empty accumulator created when `correlations is None`. -/
def emptyCorr : Dict :=
  [("Feature 1", []),
   ("Feature 2", []),
   ("Absolute Spearman", []),
   ("Spearman", []),
   ("Spearman p-value", []),
   ("Absolute Pearson", []),
   ("Pearson", []),
   ("Pearson p-value", []),
   ("Pearson r-squared", [])]

/-- The embedded `get_correlations`: result dictionary together with the
exception that aborted the call, if any. -/
def get_correlations (stats : Stats) (feature_pairs : List (String × String))
    (df : DataFrame) (correlations : Option Dict) : Dict × Option PyError :=
  getCorrLoop stats df feature_pairs (correlations.getD emptyCorr)

/-- Helper for statements: the accumulator with the nine canonical keys in
insertion order, holding the given columns. -/
def mkCorr (l1 l2 l3 l4 l5 l6 l7 l8 l9 : List Entry) : Dict :=
  [("Feature 1", l1),
   ("Feature 2", l2),
   ("Absolute Spearman", l3),
   ("Spearman", l4),
   ("Spearman p-value", l5),
   ("Absolute Pearson", l6),
   ("Pearson", l7),
   ("Pearson p-value", l8),
   ("Pearson r-squared", l9)]

/-- Helper for statements: the cleaned, row-paired data the SciPy routines
receive for a given pair (meaningful when both lookups succeed). -/
def pairData (df : DataFrame) (p : String × String) : List (ℚ × ℚ) :=
  cleanPair (((df.lookup p.1).getD []).zip ((df.lookup p.2).getD []))

/-- Helper for statements: keep only the rows where both cells are finite
rationals, reading off their values.  `cleanPair` is proved equal to this. -/
def finPairs (rows : List (Val × Val)) : List (ℚ × ℚ) :=
  rows.filterMap (fun r =>
    match r.1, r.2 with
    | .fin x, .fin y => some (x, y)
    | _, _ => none)

/-- The `Feature 1` entry one pair contributes to the result table. -/
def rowF1 (p : String × String) : Entry := .str p.1

/-- The `Feature 2` entry one pair contributes. -/
def rowF2 (p : String × String) : Entry := .str p.2

/-- The `Absolute Spearman` entry one pair contributes. -/
def rowAbsS (stats : Stats) (df : DataFrame) (p : String × String) : Entry :=
  .num |(stats.spearmanr (pairData df p)).statistic|

/-- The `Spearman` entry one pair contributes. -/
def rowS (stats : Stats) (df : DataFrame) (p : String × String) : Entry :=
  .num (stats.spearmanr (pairData df p)).statistic

/-- The `Spearman p-value` entry one pair contributes. -/
def rowSP (stats : Stats) (df : DataFrame) (p : String × String) : Entry :=
  .num (stats.spearmanr (pairData df p)).pvalue

/-- The `Absolute Pearson` entry one pair contributes: the source appends the
raw Pearson statistic here, without taking an absolute value. -/
def rowAbsP (stats : Stats) (df : DataFrame) (p : String × String) : Entry :=
  .num (stats.pearsonr (pairData df p)).statistic

/-- The `Pearson` entry one pair contributes. -/
def rowP (stats : Stats) (df : DataFrame) (p : String × String) : Entry :=
  .num (stats.pearsonr (pairData df p)).statistic

/-- The `Pearson p-value` entry one pair contributes. -/
def rowPP (stats : Stats) (df : DataFrame) (p : String × String) : Entry :=
  .num (stats.pearsonr (pairData df p)).pvalue

/-- The `Pearson r-squared` entry one pair contributes. -/
def rowRsq (stats : Stats) (df : DataFrame) (p : String × String) : Entry :=
  .num ((stats.pearsonr (pairData df p)).statistic ^ 2)

/-- The nine dictionary keys, in the insertion order of the source. -/
def nineKeys : List String :=
  ["Feature 1", "Feature 2", "Absolute Spearman", "Spearman", "Spearman p-value",
   "Absolute Pearson", "Pearson", "Pearson p-value", "Pearson r-squared"]

/-- Drop one key from a dictionary (to build accumulators missing a key). -/
def removeKey (d : Dict) (k : String) : Dict :=
  d.filter (fun kv => kv.1 != k)

/-- Concrete oracle for witnesses: the exact values SciPy returns on the
perfectly anti-correlated columns `[1,2,3]` and `[3,2,1]`, where both the
Pearson and the Spearman statistic are exactly `-1` with p-value `0`. -/
def negStats : Stats :=
  ⟨fun _ => ⟨-1, 0⟩, fun _ => ⟨-1, 0⟩⟩

/-- Concrete dataframe for witnesses: `X = [1,2,3]`, `Y = [3,2,1]`. -/
def dfAnti : DataFrame :=
  ⟨[("X", [.fin 1, .fin 2, .fin 3]), ("Y", [.fin 3, .fin 2, .fin 1])]⟩

/-- Concrete dataframe with a missing and an infinite cell, for witnesses:
`A = [1, nan, 3, inf]`, `B = [2, 4, 6, 8]`. -/
def dfDirty : DataFrame :=
  ⟨[("A", [.fin 1, .na, .fin 3, .pinf]), ("B", [.fin 2, .fin 4, .fin 6, .fin 8])]⟩

/-! ### Helper lemmas -/

theorem zip_map_fst_snd {α β : Type} (l : List (α × β)) :
    (l.map Prod.fst).zip (l.map Prod.snd) = l := by
  induction l with
  | nil => rfl
  | cons r rs ih => simp [ih]

theorem cleanPair_eq_finPairs (rows : List (Val × Val)) :
    cleanPair rows = finPairs rows := by
  induction rows with
  | nil => rfl
  | cons r rs ih =>
    rcases r with ⟨x, y⟩
    cases x <;> cases y <;>
      first
        | exact ih
        | exact congrArg (List.cons _) ih

theorem appendRecord_mkCorr (l1 l2 l3 l4 l5 l6 l7 l8 l9 : List Entry)
    (a b : String) (pcc src : StatResult) :
    appendRecord (mkCorr l1 l2 l3 l4 l5 l6 l7 l8 l9) (recordEntries a b pcc src) =
      (mkCorr (l1 ++ [.str a]) (l2 ++ [.str b])
        (l3 ++ [.num |src.statistic|]) (l4 ++ [.num src.statistic])
        (l5 ++ [.num src.pvalue]) (l6 ++ [.num pcc.statistic])
        (l7 ++ [.num pcc.statistic]) (l8 ++ [.num pcc.pvalue])
        (l9 ++ [.num (pcc.statistic ^ 2)]), none) := by
  rfl

theorem processPair_valid (stats : Stats) (df : DataFrame) (p : String × String)
    (ca cb : List Val) (hne : p.1 ≠ p.2)
    (hca : df.lookup p.1 = some ca) (hcb : df.lookup p.2 = some cb)
    (l1 l2 l3 l4 l5 l6 l7 l8 l9 : List Entry) :
    processPair stats df p (mkCorr l1 l2 l3 l4 l5 l6 l7 l8 l9) =
      (mkCorr (l1 ++ [rowF1 p]) (l2 ++ [rowF2 p])
        (l3 ++ [rowAbsS stats df p]) (l4 ++ [rowS stats df p])
        (l5 ++ [rowSP stats df p]) (l6 ++ [rowAbsP stats df p])
        (l7 ++ [rowP stats df p]) (l8 ++ [rowPP stats df p])
        (l9 ++ [rowRsq stats df p]), none) := by
  have hpd : pairData df p = cleanPair (ca.zip cb) := by
    simp [pairData, hca, hcb]
  simp [processPair, hne, hca, hcb, appendRecord_mkCorr, hpd,
    rowF1, rowF2, rowAbsS, rowS, rowSP, rowAbsP, rowP, rowPP, rowRsq]

theorem getCorrLoop_nil (stats : Stats) (df : DataFrame) (d : Dict) :
    getCorrLoop stats df [] d = (d, none) := rfl

theorem getCorrLoop_cons (stats : Stats) (df : DataFrame)
    (p : String × String) (ps : List (String × String)) (d : Dict) :
    getCorrLoop stats df (p :: ps) d =
      match processPair stats df p d with
      | (d', none) => getCorrLoop stats df ps d'
      | (d', some e) => (d', some e) := rfl

theorem getCorrLoop_valid (stats : Stats) (df : DataFrame)
    (pairs : List (String × String))
    (h : ∀ p ∈ pairs, p.1 ≠ p.2 ∧ (df.lookup p.1).isSome ∧ (df.lookup p.2).isSome)
    (l1 l2 l3 l4 l5 l6 l7 l8 l9 : List Entry) :
    getCorrLoop stats df pairs (mkCorr l1 l2 l3 l4 l5 l6 l7 l8 l9) =
      (mkCorr (l1 ++ pairs.map rowF1) (l2 ++ pairs.map rowF2)
        (l3 ++ pairs.map (rowAbsS stats df)) (l4 ++ pairs.map (rowS stats df))
        (l5 ++ pairs.map (rowSP stats df)) (l6 ++ pairs.map (rowAbsP stats df))
        (l7 ++ pairs.map (rowP stats df)) (l8 ++ pairs.map (rowPP stats df))
        (l9 ++ pairs.map (rowRsq stats df)), none) := by
  induction pairs generalizing l1 l2 l3 l4 l5 l6 l7 l8 l9 with
  | nil => simp [getCorrLoop]
  | cons p ps ih =>
    obtain ⟨hne, hca, hcb⟩ := h p (List.mem_cons_self p ps)
    obtain ⟨ca, hca⟩ := Option.isSome_iff_exists.mp hca
    obtain ⟨cb, hcb⟩ := Option.isSome_iff_exists.mp hcb
    have hstep := processPair_valid stats df p ca cb hne hca hcb l1 l2 l3 l4 l5 l6 l7 l8 l9
    have hrest : ∀ q ∈ ps, q.1 ≠ q.2 ∧ (df.lookup q.1).isSome ∧ (df.lookup q.2).isSome :=
      fun q hq => h q (List.mem_cons_of_mem p hq)
    simp only [getCorrLoop, hstep, ih hrest, List.map_cons, List.append_assoc,
      List.singleton_append]

theorem getCorrLoop_append (stats : Stats) (df : DataFrame)
    (xs ys : List (String × String)) (d d1 : Dict)
    (h : getCorrLoop stats df xs d = (d1, none)) :
    getCorrLoop stats df (xs ++ ys) d = getCorrLoop stats df ys d1 := by
  induction xs generalizing d with
  | nil =>
    rw [getCorrLoop_nil] at h
    obtain ⟨rfl, -⟩ := Prod.mk.injEq .. ▸ h
    rw [List.nil_append]
  | cons p ps ih =>
    rw [List.cons_append, getCorrLoop_cons]
    rw [getCorrLoop_cons] at h
    rcases hp : processPair stats df p d with ⟨d', e⟩
    rw [hp] at h
    cases e with
    | none => exact ih d' h
    | some err => simp at h

theorem getCorrLoop_filter_self (stats : Stats) (df : DataFrame)
    (pairs : List (String × String)) (d : Dict) :
    getCorrLoop stats df pairs d =
      getCorrLoop stats df (pairs.filter (fun p => p.1 != p.2)) d := by
  induction pairs generalizing d with
  | nil => rfl
  | cons p ps ih =>
    by_cases hp : p.1 = p.2
    · have hskip : processPair stats df p d = (d, none) := by simp [processPair, hp]
      rw [List.filter_cons_of_neg (by simp [hp]), getCorrLoop_cons, hskip]
      exact ih d
    · rw [List.filter_cons_of_pos (by simp [hp]), getCorrLoop_cons, getCorrLoop_cons]
      rcases hstep : processPair stats df p d with ⟨d', e⟩
      cases e with
      | none => exact ih d'
      | some err => rfl

end Gperdrizet

namespace Gperdrizet

/-- C1: the source appends the raw Pearson statistic under `Absolute Pearson`
(line 52 of `gperdrizet_functions.py` has no `abs`), so on the perfectly
anti-correlated data `X = [1,2,3]`, `Y = [3,2,1]`, where SciPy returns the
Pearson statistic `-1`, the stored `Absolute Pearson` value is `-1` and not
`|-1| = 1`; the claimed identity fails. -/
theorem absolutePearson_holds_signed_statistic :
    (get_correlations negStats [("X", "Y")] dfAnti none).1.lookup "Absolute Pearson"
        = some [Entry.num (-1)]
    ∧ (get_correlations negStats [("X", "Y")] dfAnti none).1.lookup "Pearson"
        = some [Entry.num (-1)]
    ∧ Entry.num (-1) ≠ Entry.num |(-1 : ℚ)| :=
  ⟨rfl, rfl, by decide⟩

/-- C2: self pairs never contribute a row, raise no error, and leave the
accumulator untouched: any call computes exactly what the same call computes
on the pair list with all self pairs removed, for every pair list, dataset,
and (absent or supplied) accumulator, hence identically across repeated
calls. -/
theorem self_pairs_silently_skipped (stats : Stats) (pairs : List (String × String))
    (df : DataFrame) (acc : Option Dict) :
    get_correlations stats pairs df acc =
      get_correlations stats (pairs.filter (fun p => p.1 != p.2)) df acc :=
  getCorrLoop_filter_self stats df pairs _

/-- C4: calling on `P1` from a fresh accumulator and continuing on `P2` from
the returned table gives the same result (table and error component alike) as
one call on `P1 ++ P2` from a fresh accumulator. -/
theorem chained_calls_equal_concatenated_call (stats : Stats) (df : DataFrame)
    (P1 P2 : List (String × String)) (d1 : Dict)
    (h : get_correlations stats P1 df none = (d1, none)) :
    get_correlations stats (P1 ++ P2) df none =
      get_correlations stats P2 df (some d1) :=
  getCorrLoop_append stats df P1 P2 emptyCorr d1 h

/-- Witness for C4 at a concrete input. -/
theorem chained_calls_equal_concatenated_call_witness :
    get_correlations negStats [("X", "Y")] dfAnti none =
      (mkCorr [.str "X"] [.str "Y"] [.num 1] [.num (-1)] [.num 0]
        [.num (-1)] [.num (-1)] [.num 0] [.num 1], none)
    ∧ get_correlations negStats ([("X", "Y")] ++ [("Y", "X")]) dfAnti none =
      get_correlations negStats [("Y", "X")] dfAnti
        (some (mkCorr [.str "X"] [.str "Y"] [.num 1] [.num (-1)] [.num 0]
          [.num (-1)] [.num (-1)] [.num 0] [.num 1])) :=
  ⟨by decide, chained_calls_equal_concatenated_call negStats dfAnti
    [("X", "Y")] [("Y", "X")] _ (by decide)⟩

/-- C5: starting from a fresh accumulator, on valid pairs the
`Pearson r-squared` column is row-for-row the square of the `Pearson`
column. -/
theorem pearson_r_squared_eq_square (stats : Stats) (df : DataFrame)
    (pairs : List (String × String))
    (hval : ∀ p ∈ pairs, p.1 ≠ p.2 ∧ (df.lookup p.1).isSome ∧ (df.lookup p.2).isSome) :
    ∃ lp lr : List Entry,
      (get_correlations stats pairs df none).1.lookup "Pearson" = some lp
      ∧ (get_correlations stats pairs df none).1.lookup "Pearson r-squared" = some lr
      ∧ List.Forall₂ (fun ep er => ∃ q : ℚ, ep = Entry.num q ∧ er = Entry.num (q ^ 2))
          lp lr := by
  have hmain : get_correlations stats pairs df none =
      (mkCorr (pairs.map rowF1) (pairs.map rowF2)
        (pairs.map (rowAbsS stats df)) (pairs.map (rowS stats df))
        (pairs.map (rowSP stats df)) (pairs.map (rowAbsP stats df))
        (pairs.map (rowP stats df)) (pairs.map (rowPP stats df))
        (pairs.map (rowRsq stats df)), none) :=
    getCorrLoop_valid stats df pairs hval [] [] [] [] [] [] [] [] []
  refine ⟨pairs.map (rowP stats df), pairs.map (rowRsq stats df), ?_, ?_, ?_⟩
  · rw [hmain]; rfl
  · rw [hmain]; rfl
  · rw [List.forall₂_map_right_iff, List.forall₂_map_left_iff]
    exact List.forall₂_same.mpr fun p _ =>
      ⟨(stats.pearsonr (pairData df p)).statistic, rfl, rfl⟩

/-- Witness for C5 at a concrete input. -/
theorem pearson_r_squared_eq_square_witness :
    (∀ p ∈ [("X", "Y"), ("Y", "X")],
      p.1 ≠ p.2 ∧ (dfAnti.lookup p.1).isSome ∧ (dfAnti.lookup p.2).isSome)
    ∧ ∃ lp lr : List Entry,
      (get_correlations negStats [("X", "Y"), ("Y", "X")] dfAnti none).1.lookup "Pearson"
          = some lp
      ∧ (get_correlations negStats [("X", "Y"), ("Y", "X")] dfAnti none).1.lookup
          "Pearson r-squared" = some lr
      ∧ List.Forall₂ (fun ep er => ∃ q : ℚ, ep = Entry.num q ∧ er = Entry.num (q ^ 2))
          lp lr :=
  ⟨by decide, pearson_r_squared_eq_square negStats dfAnti [("X", "Y"), ("Y", "X")]
    (by decide)⟩

end Gperdrizet

namespace Gperdrizet

/-- C3: starting from a table whose nine columns all have length `L`, a call
on valid (non-self, present-in-dataset) pairs succeeds and appends exactly
one row per pair: the feature-name columns extend by exactly the submitted
pairs in input order (so a pair submitted twice appears twice), every other
column extends by the matching statistic entries, and afterwards every
column has length `L` plus the number of pairs. -/
theorem valid_pairs_append_one_row_each (stats : Stats) (df : DataFrame)
    (pairs : List (String × String)) (l1 l2 l3 l4 l5 l6 l7 l8 l9 : List Entry) (L : ℕ)
    (hval : ∀ p ∈ pairs, p.1 ≠ p.2 ∧ (df.lookup p.1).isSome ∧ (df.lookup p.2).isSome)
    (hlen : ∀ kv ∈ mkCorr l1 l2 l3 l4 l5 l6 l7 l8 l9, kv.2.length = L) :
    get_correlations stats pairs df (some (mkCorr l1 l2 l3 l4 l5 l6 l7 l8 l9)) =
      (mkCorr (l1 ++ pairs.map rowF1) (l2 ++ pairs.map rowF2)
        (l3 ++ pairs.map (rowAbsS stats df)) (l4 ++ pairs.map (rowS stats df))
        (l5 ++ pairs.map (rowSP stats df)) (l6 ++ pairs.map (rowAbsP stats df))
        (l7 ++ pairs.map (rowP stats df)) (l8 ++ pairs.map (rowPP stats df))
        (l9 ++ pairs.map (rowRsq stats df)), none)
    ∧ ∀ kv ∈ (get_correlations stats pairs df
        (some (mkCorr l1 l2 l3 l4 l5 l6 l7 l8 l9))).1,
        kv.2.length = L + pairs.length := by
  have hmain :
      get_correlations stats pairs df (some (mkCorr l1 l2 l3 l4 l5 l6 l7 l8 l9)) =
      (mkCorr (l1 ++ pairs.map rowF1) (l2 ++ pairs.map rowF2)
        (l3 ++ pairs.map (rowAbsS stats df)) (l4 ++ pairs.map (rowS stats df))
        (l5 ++ pairs.map (rowSP stats df)) (l6 ++ pairs.map (rowAbsP stats df))
        (l7 ++ pairs.map (rowP stats df)) (l8 ++ pairs.map (rowPP stats df))
        (l9 ++ pairs.map (rowRsq stats df)), none) :=
    getCorrLoop_valid stats df pairs hval l1 l2 l3 l4 l5 l6 l7 l8 l9
  refine ⟨hmain, ?_⟩
  rw [hmain]
  have h1 := hlen ("Feature 1", l1) (by simp [mkCorr])
  have h2 := hlen ("Feature 2", l2) (by simp [mkCorr])
  have h3 := hlen ("Absolute Spearman", l3) (by simp [mkCorr])
  have h4 := hlen ("Spearman", l4) (by simp [mkCorr])
  have h5 := hlen ("Spearman p-value", l5) (by simp [mkCorr])
  have h6 := hlen ("Absolute Pearson", l6) (by simp [mkCorr])
  have h7 := hlen ("Pearson", l7) (by simp [mkCorr])
  have h8 := hlen ("Pearson p-value", l8) (by simp [mkCorr])
  have h9 := hlen ("Pearson r-squared", l9) (by simp [mkCorr])
  intro kv hkv
  simp only [mkCorr, List.mem_cons, List.not_mem_nil, or_false] at hkv
  rcases hkv with rfl | rfl | rfl | rfl | rfl | rfl | rfl | rfl | rfl <;>
    simp [h1, h2, h3, h4, h5, h6, h7, h8, h9]

/-- Witness for C3 at a concrete input, submitting the same pair twice. -/
theorem valid_pairs_append_one_row_each_witness :
    (∀ p ∈ [("X", "Y"), ("X", "Y")],
      p.1 ≠ p.2 ∧ (dfAnti.lookup p.1).isSome ∧ (dfAnti.lookup p.2).isSome)
    ∧ (∀ kv ∈ mkCorr [] [] [] [] [] [] [] [] [], kv.2.length = 0)
    ∧ (get_correlations negStats [("X", "Y"), ("X", "Y")] dfAnti
        (some (mkCorr [] [] [] [] [] [] [] [] [])) =
      (mkCorr ([] ++ [("X", "Y"), ("X", "Y")].map rowF1)
        ([] ++ [("X", "Y"), ("X", "Y")].map rowF2)
        ([] ++ [("X", "Y"), ("X", "Y")].map (rowAbsS negStats dfAnti))
        ([] ++ [("X", "Y"), ("X", "Y")].map (rowS negStats dfAnti))
        ([] ++ [("X", "Y"), ("X", "Y")].map (rowSP negStats dfAnti))
        ([] ++ [("X", "Y"), ("X", "Y")].map (rowAbsP negStats dfAnti))
        ([] ++ [("X", "Y"), ("X", "Y")].map (rowP negStats dfAnti))
        ([] ++ [("X", "Y"), ("X", "Y")].map (rowPP negStats dfAnti))
        ([] ++ [("X", "Y"), ("X", "Y")].map (rowRsq negStats dfAnti)), none)
    ∧ ∀ kv ∈ (get_correlations negStats [("X", "Y"), ("X", "Y")] dfAnti
        (some (mkCorr [] [] [] [] [] [] [] [] []))).1,
        kv.2.length = 0 + [("X", "Y"), ("X", "Y")].length) :=
  ⟨by decide, by decide,
    valid_pairs_append_one_row_each negStats dfAnti [("X", "Y"), ("X", "Y")]
      [] [] [] [] [] [] [] [] [] 0 (by decide) (by decide)⟩

end Gperdrizet

namespace Gperdrizet

theorem finPairs_filter_noInf (l : List (Val × Val)) :
    finPairs (l.filter (fun r => !r.1.isInf && !r.2.isInf)) = finPairs l := by
  induction l with
  | nil => rfl
  | cons r rs ih =>
    rcases r with ⟨x, y⟩
    cases x <;> cases y <;>
      first
        | exact ih
        | exact congrArg (List.cons _) ih

theorem finPairs_filter_noNa (l : List (Val × Val)) :
    finPairs (l.filter (fun r => !r.1.isNa && !r.2.isNa)) = finPairs l := by
  induction l with
  | nil => rfl
  | cons r rs ih =>
    rcases r with ⟨x, y⟩
    cases x <;> cases y <;>
      first
        | exact ih
        | exact congrArg (List.cons _) ih

theorem getCorrLoop_singleton (stats : Stats) (df : DataFrame)
    (p : String × String) (d : Dict) :
    getCorrLoop stats df [p] d = processPair stats df p d := by
  rw [getCorrLoop_cons]
  rcases processPair stats df p d with ⟨d', e⟩
  cases e <;> rfl

theorem processPair_two_col (stats : Stats) (a b : String) (la lb : List Val)
    (hne : a ≠ b) (d : Dict) :
    processPair stats (⟨[(a, la), (b, lb)]⟩ : DataFrame) (a, b) d =
      (let cleaned := cleanPair (la.zip lb)
       let pcc := stats.pearsonr cleaned
       let src := stats.spearmanr cleaned
       let r := appendRecord d (recordEntries a b pcc src)
       (r.1, r.2.map PyError.keyError)) := by
  have hla : (⟨[(a, la), (b, lb)]⟩ : DataFrame).lookup a = some la := by
    simp [DataFrame.lookup, List.lookup]
  have hba : (b == a) = false := beq_eq_false_iff_ne.mpr (Ne.symm hne)
  have hlb : (⟨[(a, la), (b, lb)]⟩ : DataFrame).lookup b = some lb := by
    simp [DataFrame.lookup, List.lookup, hba]
  simp [processPair, hne, hla, hlb]

/-- C6: for a pair whose columns contain infinities, the data handed to the
statistic routines is the same as from a dataset with those rows absent
entirely: the call computes the identical result on the two-column dataset
obtained by deleting every row in which either selected value is infinite. -/
theorem infinite_rows_excluded (stats : Stats) (a b : String) (ca cb : List Val)
    (df : DataFrame) (acc : Option Dict)
    (hne : a ≠ b) (hca : df.lookup a = some ca) (hcb : df.lookup b = some cb) :
    get_correlations stats [(a, b)] df acc =
      get_correlations stats [(a, b)]
        (⟨[(a, ((ca.zip cb).filter (fun r => !r.1.isInf && !r.2.isInf)).map Prod.fst),
           (b, ((ca.zip cb).filter (fun r => !r.1.isInf && !r.2.isInf)).map Prod.snd)]⟩ :
          DataFrame) acc := by
  show getCorrLoop _ _ _ _ = getCorrLoop _ _ _ _
  rw [getCorrLoop_singleton, getCorrLoop_singleton]
  rw [processPair_two_col stats a b _ _ hne]
  have hclean :
      cleanPair ((((ca.zip cb).filter (fun r => !r.1.isInf && !r.2.isInf)).map Prod.fst).zip
        (((ca.zip cb).filter (fun r => !r.1.isInf && !r.2.isInf)).map Prod.snd)) =
      cleanPair (ca.zip cb) := by
    rw [zip_map_fst_snd, cleanPair_eq_finPairs, cleanPair_eq_finPairs,
      finPairs_filter_noInf]
  rw [hclean]
  simp [processPair, hne, hca, hcb]

/-- Witness for C6 at a concrete input containing an infinite cell. -/
theorem infinite_rows_excluded_witness :
    ("A" : String) ≠ "B"
    ∧ dfDirty.lookup "A" = some [.fin 1, .na, .fin 3, .pinf]
    ∧ dfDirty.lookup "B" = some [.fin 2, .fin 4, .fin 6, .fin 8]
    ∧ get_correlations negStats [("A", "B")] dfDirty none =
      get_correlations negStats [("A", "B")]
        (⟨[("A", ((([.fin 1, .na, .fin 3, .pinf] : List Val).zip
              ([.fin 2, .fin 4, .fin 6, .fin 8] : List Val)).filter
                (fun r => !r.1.isInf && !r.2.isInf)).map Prod.fst),
           ("B", ((([.fin 1, .na, .fin 3, .pinf] : List Val).zip
              ([.fin 2, .fin 4, .fin 6, .fin 8] : List Val)).filter
                (fun r => !r.1.isInf && !r.2.isInf)).map Prod.snd)]⟩ : DataFrame)
        none :=
  ⟨by decide, by decide, by decide,
    infinite_rows_excluded negStats "A" "B" _ _ dfDirty none (by decide)
      (by decide) (by decide)⟩

/-- C7: the complete-case restriction: the call computes the identical result
on the two-column dataset holding only the rows of the selected pair where
both values are present (`dropna`); the restriction is recomputed from the
selected columns of each pair, so different pairs may use different rows. -/
theorem missing_rows_excluded (stats : Stats) (a b : String) (ca cb : List Val)
    (df : DataFrame) (acc : Option Dict)
    (hne : a ≠ b) (hca : df.lookup a = some ca) (hcb : df.lookup b = some cb) :
    get_correlations stats [(a, b)] df acc =
      get_correlations stats [(a, b)]
        (⟨[(a, (dropna (ca.zip cb)).map Prod.fst),
           (b, (dropna (ca.zip cb)).map Prod.snd)]⟩ : DataFrame) acc := by
  show getCorrLoop _ _ _ _ = getCorrLoop _ _ _ _
  rw [getCorrLoop_singleton, getCorrLoop_singleton]
  rw [processPair_two_col stats a b _ _ hne]
  have hclean :
      cleanPair (((dropna (ca.zip cb)).map Prod.fst).zip
        ((dropna (ca.zip cb)).map Prod.snd)) = cleanPair (ca.zip cb) := by
    rw [zip_map_fst_snd, cleanPair_eq_finPairs, cleanPair_eq_finPairs]
    exact finPairs_filter_noNa (ca.zip cb)
  rw [hclean]
  simp [processPair, hne, hca, hcb]

/-- Witness for C7 at a concrete input containing a missing cell. -/
theorem missing_rows_excluded_witness :
    ("A" : String) ≠ "B"
    ∧ dfDirty.lookup "A" = some [.fin 1, .na, .fin 3, .pinf]
    ∧ dfDirty.lookup "B" = some [.fin 2, .fin 4, .fin 6, .fin 8]
    ∧ get_correlations negStats [("A", "B")] dfDirty none =
      get_correlations negStats [("A", "B")]
        (⟨[("A", (dropna (([.fin 1, .na, .fin 3, .pinf] : List Val).zip
              ([.fin 2, .fin 4, .fin 6, .fin 8] : List Val))).map Prod.fst),
           ("B", (dropna (([.fin 1, .na, .fin 3, .pinf] : List Val).zip
              ([.fin 2, .fin 4, .fin 6, .fin 8] : List Val))).map Prod.snd)]⟩ :
          DataFrame) none :=
  ⟨by decide, by decide, by decide,
    missing_rows_excluded negStats "A" "B" _ _ dfDirty none (by decide)
      (by decide) (by decide)⟩

end Gperdrizet

namespace Gperdrizet

/-- C9: when the loop reaches a non-self pair naming a column absent from the
dataset, the lookup failure aborts the call at that pair: the error is the
`KeyError` for one of the two names (whichever the selection reports first),
the table keeps exactly the rows of the pairs already processed, and the
pairs after the failing one are never processed, whatever they are. -/
theorem absent_feature_aborts_loop (stats : Stats) (df : DataFrame)
    (pre : List (String × String)) (a b : String) (rest : List (String × String))
    (acc : Option Dict) (d1 : Dict)
    (hpre : get_correlations stats pre df acc = (d1, none))
    (hab : a ≠ b) (habs : df.lookup a = none ∨ df.lookup b = none) :
    ∃ k, (k = a ∨ k = b) ∧ df.lookup k = none ∧
      get_correlations stats (pre ++ (a, b) :: rest) df acc =
        (d1, some (PyError.keyError k)) := by
  have happ := getCorrLoop_append stats df pre ((a, b) :: rest) (acc.getD emptyCorr) d1 hpre
  rcases hLa : df.lookup a with _ | ca
  · refine ⟨a, Or.inl rfl, hLa, ?_⟩
    show getCorrLoop stats df (pre ++ (a, b) :: rest) (acc.getD emptyCorr) = _
    rw [happ, getCorrLoop_cons]
    simp [processPair, hab, hLa]
  · have hLb : df.lookup b = none := by
      rcases habs with h | h
      · rw [hLa] at h; exact absurd h (by simp)
      · exact h
    refine ⟨b, Or.inr rfl, hLb, ?_⟩
    show getCorrLoop stats df (pre ++ (a, b) :: rest) (acc.getD emptyCorr) = _
    rw [happ, getCorrLoop_cons]
    simp [processPair, hab, hLa, hLb]

/-- Witness for C9 at a concrete input: the absent name `"Z"` aborts the call
after the first pair's row, and the later pair is never processed. -/
theorem absent_feature_aborts_loop_witness :
    get_correlations negStats [("X", "Y")] dfAnti none =
      (mkCorr [.str "X"] [.str "Y"] [.num 1] [.num (-1)] [.num 0]
        [.num (-1)] [.num (-1)] [.num 0] [.num 1], none)
    ∧ ("Z" : String) ≠ "Y"
    ∧ (dfAnti.lookup "Z" = none ∨ dfAnti.lookup "Y" = none)
    ∧ ∃ k, (k = "Z" ∨ k = "Y") ∧ dfAnti.lookup k = none ∧
      get_correlations negStats ([("X", "Y")] ++ ("Z", "Y") :: [("X", "Y")]) dfAnti none =
        (mkCorr [.str "X"] [.str "Y"] [.num 1] [.num (-1)] [.num 0]
          [.num (-1)] [.num (-1)] [.num 0] [.num 1], some (PyError.keyError k)) :=
  ⟨by decide, by decide, by decide,
    absent_feature_aborts_loop negStats dfAnti [("X", "Y")] "Z" "Y" [("X", "Y")]
      none _ (by decide) (by decide) (by decide)⟩

end Gperdrizet

namespace Gperdrizet

/-- C10 counterexample: an accumulator missing `Feature 1` - the first key
appended - makes the call fail with that `KeyError` before any append, so the
accumulator is left exactly as supplied, with all eight remaining columns of
equal length: the claimed "mutated with columns of unequal length" fails. -/
theorem missing_feature1_key_no_mutation :
    get_correlations negStats [("X", "Y")] dfAnti
        (some (removeKey emptyCorr "Feature 1")) =
      (removeKey emptyCorr "Feature 1", some (PyError.keyError "Feature 1"))
    ∧ ∀ kv ∈ removeKey emptyCorr "Feature 1", kv.2.length = 0 :=
  ⟨by decide, by decide⟩

end Gperdrizet

namespace Gperdrizet

/-- C10 amended: with an accumulator missing one of the nine keys (the other
eight canonical columns all of length `L`), the first non-self valid pair
fails with the `KeyError` for the missing key and later pairs are never
processed; the appends to keys earlier in the fixed append order have already
happened, so the append of a record is not atomic on error: when the missing
key is one of the seven middle keys, the accumulator is left with columns of
unequal length (`Feature 1` has `L + 1` entries, `Pearson r-squared` still
`L`); when `Feature 1` itself is missing, nothing was appended and the
accumulator is unchanged; when `Pearson r-squared` is missing, all eight
remaining columns were extended to length `L + 1`. -/
theorem missing_key_append_not_atomic (stats : Stats) (df : DataFrame)
    (a b : String) (rest : List (String × String)) (ca cb : List Val)
    (missing : String) (l1 l2 l3 l4 l5 l6 l7 l8 l9 : List Entry) (L : ℕ)
    (hm : missing ∈ nineKeys)
    (hlen : ∀ kv ∈ mkCorr l1 l2 l3 l4 l5 l6 l7 l8 l9, kv.2.length = L)
    (hab : a ≠ b) (hca : df.lookup a = some ca) (hcb : df.lookup b = some cb) :
    ∃ d' : Dict,
      get_correlations stats ((a, b) :: rest) df
          (some (removeKey (mkCorr l1 l2 l3 l4 l5 l6 l7 l8 l9) missing)) =
        (d', some (PyError.keyError missing))
      ∧ (missing = "Feature 1" →
          d' = removeKey (mkCorr l1 l2 l3 l4 l5 l6 l7 l8 l9) missing)
      ∧ (missing ≠ "Feature 1" → missing ≠ "Pearson r-squared" →
          ∃ c1 c2 : List Entry, d'.lookup "Feature 1" = some c1
            ∧ d'.lookup "Pearson r-squared" = some c2
            ∧ c1.length = L + 1 ∧ c2.length = L)
      ∧ (missing = "Pearson r-squared" → ∀ kv ∈ d', kv.2.length = L + 1) := by
  have h1 := hlen ("Feature 1", l1) (by simp [mkCorr])
  have h2 := hlen ("Feature 2", l2) (by simp [mkCorr])
  have h3 := hlen ("Absolute Spearman", l3) (by simp [mkCorr])
  have h4 := hlen ("Spearman", l4) (by simp [mkCorr])
  have h5 := hlen ("Spearman p-value", l5) (by simp [mkCorr])
  have h6 := hlen ("Absolute Pearson", l6) (by simp [mkCorr])
  have h7 := hlen ("Pearson", l7) (by simp [mkCorr])
  have h8 := hlen ("Pearson p-value", l8) (by simp [mkCorr])
  have h9 := hlen ("Pearson r-squared", l9) (by simp [mkCorr])
  simp only [nineKeys, List.mem_cons, List.not_mem_nil, or_false] at hm
  rcases hm with rfl | rfl | rfl | rfl | rfl | rfl | rfl | rfl | rfl
  · refine ⟨removeKey (mkCorr l1 l2 l3 l4 l5 l6 l7 l8 l9) "Feature 1",
      ?_, fun _ => rfl, fun hne _ => absurd rfl hne, fun h => absurd h (by decide)⟩
    show getCorrLoop _ _ _ _ = _
    rw [getCorrLoop_cons]
    simp [processPair, hab, hca, hcb, removeKey, mkCorr, appendRecord, dictAppend,
      recordEntries]
  · refine ⟨[("Feature 1", l1 ++ [Entry.str a]),
        ("Absolute Spearman", l3),
        ("Spearman", l4),
        ("Spearman p-value", l5),
        ("Absolute Pearson", l6),
        ("Pearson", l7),
        ("Pearson p-value", l8),
        ("Pearson r-squared", l9)],
      ?_, fun h => absurd h (by decide),
      fun _ _ => ⟨l1 ++ [Entry.str a], l9, rfl, rfl, by simp [h1], h9⟩,
      fun h => absurd h (by decide)⟩
    · show getCorrLoop _ _ _ _ = _
      rw [getCorrLoop_cons]
      simp [processPair, hab, hca, hcb, removeKey, mkCorr, appendRecord, dictAppend,
        recordEntries]
  · refine ⟨[("Feature 1", l1 ++ [Entry.str a]),
        ("Feature 2", l2 ++ [Entry.str b]),
        ("Spearman", l4),
        ("Spearman p-value", l5),
        ("Absolute Pearson", l6),
        ("Pearson", l7),
        ("Pearson p-value", l8),
        ("Pearson r-squared", l9)],
      ?_, fun h => absurd h (by decide),
      fun _ _ => ⟨l1 ++ [Entry.str a], l9, rfl, rfl, by simp [h1], h9⟩,
      fun h => absurd h (by decide)⟩
    · show getCorrLoop _ _ _ _ = _
      rw [getCorrLoop_cons]
      simp [processPair, hab, hca, hcb, removeKey, mkCorr, appendRecord, dictAppend,
        recordEntries]
  · refine ⟨[("Feature 1", l1 ++ [Entry.str a]),
        ("Feature 2", l2 ++ [Entry.str b]),
        ("Absolute Spearman", l3 ++ [Entry.num |(stats.spearmanr (cleanPair (ca.zip cb))).statistic|]),
        ("Spearman p-value", l5),
        ("Absolute Pearson", l6),
        ("Pearson", l7),
        ("Pearson p-value", l8),
        ("Pearson r-squared", l9)],
      ?_, fun h => absurd h (by decide),
      fun _ _ => ⟨l1 ++ [Entry.str a], l9, rfl, rfl, by simp [h1], h9⟩,
      fun h => absurd h (by decide)⟩
    · show getCorrLoop _ _ _ _ = _
      rw [getCorrLoop_cons]
      simp [processPair, hab, hca, hcb, removeKey, mkCorr, appendRecord, dictAppend,
        recordEntries]
  · refine ⟨[("Feature 1", l1 ++ [Entry.str a]),
        ("Feature 2", l2 ++ [Entry.str b]),
        ("Absolute Spearman", l3 ++ [Entry.num |(stats.spearmanr (cleanPair (ca.zip cb))).statistic|]),
        ("Spearman", l4 ++ [Entry.num (stats.spearmanr (cleanPair (ca.zip cb))).statistic]),
        ("Absolute Pearson", l6),
        ("Pearson", l7),
        ("Pearson p-value", l8),
        ("Pearson r-squared", l9)],
      ?_, fun h => absurd h (by decide),
      fun _ _ => ⟨l1 ++ [Entry.str a], l9, rfl, rfl, by simp [h1], h9⟩,
      fun h => absurd h (by decide)⟩
    · show getCorrLoop _ _ _ _ = _
      rw [getCorrLoop_cons]
      simp [processPair, hab, hca, hcb, removeKey, mkCorr, appendRecord, dictAppend,
        recordEntries]
  · refine ⟨[("Feature 1", l1 ++ [Entry.str a]),
        ("Feature 2", l2 ++ [Entry.str b]),
        ("Absolute Spearman", l3 ++ [Entry.num |(stats.spearmanr (cleanPair (ca.zip cb))).statistic|]),
        ("Spearman", l4 ++ [Entry.num (stats.spearmanr (cleanPair (ca.zip cb))).statistic]),
        ("Spearman p-value", l5 ++ [Entry.num (stats.spearmanr (cleanPair (ca.zip cb))).pvalue]),
        ("Pearson", l7),
        ("Pearson p-value", l8),
        ("Pearson r-squared", l9)],
      ?_, fun h => absurd h (by decide),
      fun _ _ => ⟨l1 ++ [Entry.str a], l9, rfl, rfl, by simp [h1], h9⟩,
      fun h => absurd h (by decide)⟩
    · show getCorrLoop _ _ _ _ = _
      rw [getCorrLoop_cons]
      simp [processPair, hab, hca, hcb, removeKey, mkCorr, appendRecord, dictAppend,
        recordEntries]
  · refine ⟨[("Feature 1", l1 ++ [Entry.str a]),
        ("Feature 2", l2 ++ [Entry.str b]),
        ("Absolute Spearman", l3 ++ [Entry.num |(stats.spearmanr (cleanPair (ca.zip cb))).statistic|]),
        ("Spearman", l4 ++ [Entry.num (stats.spearmanr (cleanPair (ca.zip cb))).statistic]),
        ("Spearman p-value", l5 ++ [Entry.num (stats.spearmanr (cleanPair (ca.zip cb))).pvalue]),
        ("Absolute Pearson", l6 ++ [Entry.num (stats.pearsonr (cleanPair (ca.zip cb))).statistic]),
        ("Pearson p-value", l8),
        ("Pearson r-squared", l9)],
      ?_, fun h => absurd h (by decide),
      fun _ _ => ⟨l1 ++ [Entry.str a], l9, rfl, rfl, by simp [h1], h9⟩,
      fun h => absurd h (by decide)⟩
    · show getCorrLoop _ _ _ _ = _
      rw [getCorrLoop_cons]
      simp [processPair, hab, hca, hcb, removeKey, mkCorr, appendRecord, dictAppend,
        recordEntries]
  · refine ⟨[("Feature 1", l1 ++ [Entry.str a]),
        ("Feature 2", l2 ++ [Entry.str b]),
        ("Absolute Spearman", l3 ++ [Entry.num |(stats.spearmanr (cleanPair (ca.zip cb))).statistic|]),
        ("Spearman", l4 ++ [Entry.num (stats.spearmanr (cleanPair (ca.zip cb))).statistic]),
        ("Spearman p-value", l5 ++ [Entry.num (stats.spearmanr (cleanPair (ca.zip cb))).pvalue]),
        ("Absolute Pearson", l6 ++ [Entry.num (stats.pearsonr (cleanPair (ca.zip cb))).statistic]),
        ("Pearson", l7 ++ [Entry.num (stats.pearsonr (cleanPair (ca.zip cb))).statistic]),
        ("Pearson r-squared", l9)],
      ?_, fun h => absurd h (by decide),
      fun _ _ => ⟨l1 ++ [Entry.str a], l9, rfl, rfl, by simp [h1], h9⟩,
      fun h => absurd h (by decide)⟩
    · show getCorrLoop _ _ _ _ = _
      rw [getCorrLoop_cons]
      simp [processPair, hab, hca, hcb, removeKey, mkCorr, appendRecord, dictAppend,
        recordEntries]
  · refine ⟨[("Feature 1", l1 ++ [Entry.str a]),
        ("Feature 2", l2 ++ [Entry.str b]),
        ("Absolute Spearman", l3 ++ [Entry.num |(stats.spearmanr (cleanPair (ca.zip cb))).statistic|]),
        ("Spearman", l4 ++ [Entry.num (stats.spearmanr (cleanPair (ca.zip cb))).statistic]),
        ("Spearman p-value", l5 ++ [Entry.num (stats.spearmanr (cleanPair (ca.zip cb))).pvalue]),
        ("Absolute Pearson", l6 ++ [Entry.num (stats.pearsonr (cleanPair (ca.zip cb))).statistic]),
        ("Pearson", l7 ++ [Entry.num (stats.pearsonr (cleanPair (ca.zip cb))).statistic]),
        ("Pearson p-value", l8 ++ [Entry.num (stats.pearsonr (cleanPair (ca.zip cb))).pvalue])],
      ?_, fun h => absurd h (by decide), fun _ h => absurd rfl h, fun _ => ?_⟩
    · show getCorrLoop _ _ _ _ = _
      rw [getCorrLoop_cons]
      simp [processPair, hab, hca, hcb, removeKey, mkCorr, appendRecord, dictAppend,
        recordEntries]
    · intro kv hkv
      simp only [List.mem_cons, List.not_mem_nil, or_false] at hkv
      rcases hkv with rfl | rfl | rfl | rfl | rfl | rfl | rfl | rfl <;>
        simp [h1, h2, h3, h4, h5, h6, h7, h8]

end Gperdrizet
namespace Gperdrizet

/-- Witness for the amended C10 at a concrete input with `Spearman` missing. -/
theorem missing_key_append_not_atomic_witness :
    ("Spearman" : String) ∈ nineKeys
    ∧ (∀ kv ∈ mkCorr [] [] [] [] [] [] [] [] [], kv.2.length = 0)
    ∧ ("X" : String) ≠ "Y"
    ∧ dfAnti.lookup "X" = some [.fin 1, .fin 2, .fin 3]
    ∧ dfAnti.lookup "Y" = some [.fin 3, .fin 2, .fin 1]
    ∧ ∃ d' : Dict,
      get_correlations negStats [("X", "Y")] dfAnti
          (some (removeKey (mkCorr [] [] [] [] [] [] [] [] []) "Spearman")) =
        (d', some (PyError.keyError "Spearman"))
      ∧ (("Spearman" : String) = "Feature 1" →
          d' = removeKey (mkCorr [] [] [] [] [] [] [] [] []) "Spearman")
      ∧ (("Spearman" : String) ≠ "Feature 1" → ("Spearman" : String) ≠ "Pearson r-squared" →
          ∃ c1 c2 : List Entry, d'.lookup "Feature 1" = some c1
            ∧ d'.lookup "Pearson r-squared" = some c2
            ∧ c1.length = 0 + 1 ∧ c2.length = 0)
      ∧ (("Spearman" : String) = "Pearson r-squared" → ∀ kv ∈ d', kv.2.length = 0 + 1) :=
  ⟨by decide, by decide, by decide, by decide, by decide,
    missing_key_append_not_atomic negStats dfAnti "X" "Y" []
      [Val.fin 1, Val.fin 2, Val.fin 3] [Val.fin 3, Val.fin 2, Val.fin 1] "Spearman"
      [] [] [] [] [] [] [] [] [] 0 (by decide) (by decide) (by decide) (by decide)
      (by decide)⟩

end Gperdrizet
